import Mathlib

/-!
Shallow embedding of the Cobo API helper module (`src/lib/helper.js`):
the request-signing routine `signRequest`, the generic HTTP wrapper
`apiRequest`, and the three convenience operations `createWallet`,
`getDepositAddress` and `withdrawETH`.

JavaScript values that flow through the helper (request parameter
objects and parsed JSON response bodies) are modelled by the inductive
`JSValue`.  Numbers are modelled as integers: no claim depends on
non-integral or NaN arithmetic.  The external cryptographic primitives
(SHA-256 from node:crypto and deterministic RFC-6979 ECDSA signing via
the `elliptic` package, whose output for a fixed key and hash is a
fixed DER byte string) are modelled as explicit function parameters in
the `Crypto` structure; the helper composes them exactly as the source
does.  The `fetch` boundary is an explicit environment function from
requests to outcomes, and each API operation returns the list of HTTP
requests it issued together with its result (`Except` models a normal
return versus a thrown error).
-/

/-- A JavaScript value, as far as the helper manipulates them:
`undefined`, `null`, booleans, (integer) numbers, strings, arrays and
plain objects with fields in insertion order. -/
inductive JSValue where
  | vUndefined : JSValue
  | vNull : JSValue
  | vBool : Bool → JSValue
  | vNum : Int → JSValue
  | vStr : String → JSValue
  | vArr : List JSValue → JSValue
  | vObj : List (String × JSValue) → JSValue

/-- JavaScript truthiness (`undefined`, `null`, `false`, `0` and the
empty string are falsy; every array and object is truthy). -/
def jsTruthy : JSValue → Bool
  | .vUndefined => false
  | .vNull => false
  | .vBool b => b
  | .vNum n => n != 0
  | .vStr s => s != ""
  | .vArr _ => true
  | .vObj _ => true

/-- `typeof v === 'object'` in JavaScript: true for `null`, arrays and
plain objects, false for `undefined` and the primitives. -/
def typeofIsObject : JSValue → Bool
  | .vNull => true
  | .vArr _ => true
  | .vObj _ => true
  | _ => false

/-- JSON string escaping for the characters the helper could meet. -/
def jsonEscapeChar (c : Char) : String :=
  if c = '"' then "\\\""
  else if c = '\\' then "\\\\"
  else if c = '\n' then "\\n"
  else if c = '\r' then "\\r"
  else if c = '\t' then "\\t"
  else String.singleton c

/-- A JSON-quoted string literal, `"..."` with escapes. -/
def jsonQuote (s : String) : String :=
  "\"" ++ String.join (s.data.map jsonEscapeChar) ++ "\""

mutual

/-- `JSON.stringify(v)`: `none` when the result is the value
`undefined` (stringifying `undefined` itself), otherwise the JSON
text.  Inside arrays `undefined` renders as `null`; inside objects
fields whose value stringifies to `undefined` are dropped. -/
def jsonStringify : JSValue → Option String
  | .vUndefined => none
  | .vNull => some "null"
  | .vBool b => some (cond b "true" "false")
  | .vNum n => some (toString n)
  | .vStr s => some (jsonQuote s)
  | .vArr xs => some ("[" ++ String.intercalate "," (jsonArrItems xs) ++ "]")
  | .vObj fs => some ("\x7b" ++ String.intercalate "," (jsonObjItems fs) ++ "\x7d")

/-- Rendered items of a JSON array (`undefined` becomes `null`). -/
def jsonArrItems : List JSValue → List String
  | [] => []
  | x :: xs => (jsonStringify x).getD "null" :: jsonArrItems xs

/-- Rendered `"key":value` members of a JSON object, dropping fields
whose value stringifies to `undefined`. -/
def jsonObjItems : List (String × JSValue) → List String
  | [] => []
  | (k, x) :: fs =>
    match jsonStringify x with
    | none => jsonObjItems fs
    | some sv => (jsonQuote k ++ ":" ++ sv) :: jsonObjItems fs

end

/-- `JSON.stringify` coerced to a string the way a template literal
would coerce its (never `undefined` in the helper) result. -/
def jsonStringifyStr (v : JSValue) : String := (jsonStringify v).getD "undefined"

mutual

/-- JavaScript `String(v)` coercion, as used by template literals:
arrays join their coerced elements with commas, objects print as
`[object Object]`. -/
def jsToString : JSValue → String
  | .vUndefined => "undefined"
  | .vNull => "null"
  | .vBool b => cond b "true" "false"
  | .vNum n => toString n
  | .vStr s => s
  | .vArr xs => String.intercalate "," (jsArrItems xs)
  | .vObj _ => "[object Object]"

/-- Coerced elements of an array under `Array.prototype.toString`
(`null` and `undefined` elements become the empty string). -/
def jsArrItems : List JSValue → List String
  | [] => []
  | .vUndefined :: xs => "" :: jsArrItems xs
  | .vNull :: xs => "" :: jsArrItems xs
  | x :: xs => jsToString x :: jsArrItems xs

end

/-- The fields of a JavaScript object, in insertion order with
pairwise-distinct keys, as passed for the `params` / `bodyObj`
arguments of the helper. -/
abbrev Params := List (String × JSValue)

/-- The `params` argument of `signRequest` (and the `bodyObj` argument
of `apiRequest`) as the call sites can supply it: `null`, `undefined`
(also the omitted-argument default `{}` is just `jobj []`), or an
object. -/
inductive ParamsArg where
  | jnull : ParamsArg
  | jundefined : ParamsArg
  | jobj : Params → ParamsArg

/-- Byte-wise (code-point) lexicographic comparison of character
lists, mirroring the default `Array.prototype.sort` string comparison
for the ASCII keys the helper uses. -/
def charsLe : List Char → List Char → Bool
  | [], _ => true
  | _ :: _, [] => false
  | a :: as, b :: bs =>
    if a.val.toNat < b.val.toNat then true
    else if b.val.toNat < a.val.toNat then false
    else charsLe as bs

/-- String comparison used to sort parameter keys. -/
def strLeb (a b : String) : Bool := charsLe a.data b.data

/-- The key order as a relation, for the sorting lemmas. -/
def strLeP (a b : String) : Prop := strLeb a b = true

instance : DecidableRel strLeP := fun _ _ => inferInstanceAs (Decidable (_ = true))

/-- `Object.keys(params).sort()`: the keys of the object in sorted
order. -/
def sortedKeysOf (ps : Params) : List String :=
  List.insertionSort strLeP (ps.map Prod.fst)

/-- Property lookup `params[key]` on an object (absent keys give
`undefined`; keys of a JS object are distinct, so first-match lookup
is exact). -/
def jsGet (ps : Params) (key : String) : JSValue :=
  (List.lookup key ps).getD JSValue.vUndefined

/-- `typeof params[key] === 'object' ? JSON.stringify(params[key]) :
params[key]`, then template-coerced into the pair string. -/
def renderParamValue (v : JSValue) : String :=
  if typeofIsObject v then jsonStringifyStr v else jsToString v

/-- The `key=value` pair strings of `signRequest`, one per sorted key
(helper.js line 30-33). -/
def keyValuePairsOf (ps : Params) : List String :=
  (sortedKeysOf ps).map (fun key => key ++ "=" ++ renderParamValue (jsGet ps key))

/-- The canonical parameter string of `signRequest` (helper.js lines
27-35): empty for a falsy or empty `params`, otherwise the sorted
`key=value` pairs joined by `&`. -/
def buildParamsStr : ParamsArg → String
  | .jnull => ""
  | .jundefined => ""
  | .jobj ps =>
    if (ps.map Prod.fst).length > 0 then String.intercalate "&" (keyValuePairsOf ps)
    else ""

/-- ASCII `String.prototype.toUpperCase`, via a structurally reducing
character map. -/
def jsUpper (s : String) : String := String.mk (s.data.map Char.toUpper)

/-- The external cryptographic primitives, as the helper uses them:
`sha256` models `crypto.createHash('sha256').update(m).digest()` and
`signDER` models `ec.keyFromPrivate(secret).sign(hash).toDER('hex')`
(elliptic signs deterministically per RFC 6979, so for a fixed private
key and message hash the DER hex output is a fixed string). -/
structure Crypto where
  sha256 : String → List Nat
  signDER : String → List Nat → String

/-- helper.js lines 25-43: build the canonical parameter string, build
the message `METHOD|PATH|NONCE|PARAMS` with the method uppercased,
hash it with SHA-256 and return the hex-encoded DER ECDSA signature. -/
def signRequest (cr : Crypto) (apiSecret : String)
    (method path nonce : String) (params : ParamsArg) : String :=
  let paramsStr := buildParamsStr params
  let message := jsUpper method ++ "|" ++ path ++ "|" ++ nonce ++ "|" ++ paramsStr
  let msgHash := cr.sha256 message
  cr.signDER apiSecret msgHash

/-- The configuration the module reads at load time (helper.js lines
6-8): API key, ECDSA private key, base URL. -/
structure Config where
  apiKey : String
  apiSecret : String
  baseUrl : String

/-- A thrown JavaScript error: a rethrown network error from `fetch`,
an `Error` constructed by the helper, or a `TypeError` from a property
access on `null` or `undefined`. -/
inductive JsError where
  | network : String → JsError
  | error : String → JsError
  | typeError : String → JsError

/-- Module initialization (helper.js lines 6-12): read the three
environment variables, default the base URL, and throw when the API
key or secret is missing (unset and empty values are both falsy in
the `!API_KEY || !API_SECRET` guard). -/
def loadModule (envVars : String → Option String) : Except JsError Config :=
  let baseUrl :=
    match envVars "COBO_BASE_URL" with
    | some s => if s != "" then s else "https://api.cobo.com"
    | none => "https://api.cobo.com"
  match envVars "COBO_API_KEY", envVars "COBO_API_SECRET" with
  | some k, some s =>
    if k != "" && s != "" then
      Except.ok { apiKey := k, apiSecret := s, baseUrl := baseUrl }
    else
      Except.error (JsError.error
        "Missing API key or secret. Please set COBO_API_KEY and COBO_API_SECRET in .env")
  | _, _ =>
    Except.error (JsError.error
      "Missing API key or secret. Please set COBO_API_KEY and COBO_API_SECRET in .env")

/-- JavaScript property access `v[p]`: throws a `TypeError` on `null`
and `undefined`, looks the field up on objects, and yields `undefined`
on every other value. -/
def jsGetProp : JSValue → String → Except JsError JSValue
  | .vNull, p =>
    Except.error (JsError.typeError ("Cannot read properties of null (reading " ++ p ++ ")"))
  | .vUndefined, p =>
    Except.error (JsError.typeError ("Cannot read properties of undefined (reading " ++ p ++ ")"))
  | .vObj fs, p => Except.ok ((List.lookup p fs).getD JSValue.vUndefined)
  | _, _ => Except.ok JSValue.vUndefined

/-- A `fetch` call as the helper issues it: method, full URL, header
list and optional serialized body. -/
structure Request where
  method : String
  url : String
  headers : List (String × String)
  body : Option String

/-- What one `fetch` call can come back with: a network failure (the
promise rejects), or a response carrying a status, a status text, the
result of `response.json()` (`none` when the body is not valid JSON)
and the raw body text. -/
inductive FetchOutcome where
  | netErr : String → FetchOutcome
  | response : (status : Nat) → (statusText : String) →
      (jsonBody : Option JSValue) → (bodyText : String) → FetchOutcome

/-- The external world of one helper invocation: what `fetch` does on
each request. -/
structure Env where
  fetch : Request → FetchOutcome

/-- The header object of `apiRequest` (helper.js lines 54-60). -/
def requestHeaders (apiKey nonce signature : String) : List (String × String) :=
  [("BIZ-API-KEY", apiKey), ("BIZ-API-NONCE", nonce), ("BIZ-API-SIGNATURE", signature),
   ("Content-Type", "application/json"), ("Accept", "application/json")]

/-- `bodyObj || {}` (helper.js line 51): objects, even empty ones, are
truthy; `null` and `undefined` fall back to `{}`. -/
def orEmptyObj : ParamsArg → ParamsArg
  | .jobj fs => .jobj fs
  | _ => .jobj []

/-- The single HTTP request `apiRequest` issues (helper.js lines
49-75): nonce from the clock, signature from `signRequest`, the five
headers, and a JSON body exactly when `bodyObj` is truthy. -/
def theRequest (cr : Crypto) (cfg : Config) (now : Nat)
    (method path : String) (bodyObj : ParamsArg) : Request :=
  let nonce := toString now
  let signature := signRequest cr cfg.apiSecret method path nonce (orEmptyObj bodyObj)
  { method := jsUpper method
    url := cfg.baseUrl ++ path
    headers := requestHeaders cfg.apiKey nonce signature
    body :=
      match bodyObj with
      | .jobj fs => some (jsonStringifyStr (JSValue.vObj fs))
      | _ => none }

/-- `response.ok`: status in the inclusive range 200-299. -/
def respOk (status : Nat) : Bool := 200 ≤ status && status ≤ 299

/-- helper.js lines 49-101: sign, send one request, rethrow a network
failure, throw on a non-JSON body, throw on a non-2xx status
(interpolating `result.message || response.statusText`, itself a
`TypeError` when the parsed body is `null`), and otherwise return the
parsed JSON body.  The first component lists the `fetch` calls
issued. -/
def apiRequest (cr : Crypto) (env : Env) (cfg : Config) (now : Nat)
    (method path : String) (bodyObj : ParamsArg) : List Request × Except JsError JSValue :=
  let req := theRequest cr cfg now method path bodyObj
  match env.fetch req with
  | .netErr msg => ([req], Except.error (JsError.network msg))
  | .response status statusText jsonBody _ =>
    match jsonBody with
    | none =>
      ([req], Except.error (JsError.error
        ("API returned non-JSON response (status " ++ toString status ++ ")")))
    | some result =>
      if respOk status then ([req], Except.ok result)
      else
        match jsGetProp result "message" with
        | Except.error e => ([req], Except.error e)
        | Except.ok m =>
          ([req], Except.error (JsError.error
            ("API request failed with status " ++ toString status ++ ": " ++
              (if jsTruthy m then jsToString m else statusText))))

/-- The request body `{ name: name, wallet_type: 'Custodial' }` of
`createWallet` (helper.js line 112). -/
def walletBody (name : String) : Params :=
  [("name", JSValue.vStr name), ("wallet_type", JSValue.vStr "Custodial")]

/-- helper.js lines 108-116: POST `/v2/wallets` and return the result.
The success log line interpolates `result.wallet_id`, which throws a
`TypeError` when the parsed result is `null` or `undefined`. -/
def createWallet (cr : Crypto) (env : Env) (cfg : Config) (now : Nat)
    (name : String) : List Request × Except JsError JSValue :=
  match apiRequest cr env cfg now "POST" "/v2/wallets" (ParamsArg.jobj (walletBody name)) with
  | (tr, Except.error e) => (tr, Except.error e)
  | (tr, Except.ok result) =>
    match jsGetProp result "wallet_id" with
    | Except.error e => (tr, Except.error e)
    | Except.ok _ => (tr, Except.ok result)

/-- The request body `{ chain_id: 'ETH' }` of `getDepositAddress`
(helper.js line 128). -/
def depositBody : Params := [("chain_id", JSValue.vStr "ETH")]

/-- `Array.isArray(result) ? result[0] : result` (helper.js line 131);
indexing past the end of an array yields `undefined`. -/
def selectAddressInfo : JSValue → JSValue
  | .vArr xs => xs.getD 0 JSValue.vUndefined
  | v => v

/-- helper.js lines 124-135: POST `/v2/wallets/{id}/addresses`, pick
the first element of an array result, and return its `address` field,
defaulting a falsy address to the empty string.  The `address` read
throws a `TypeError` when the selected value is `null` or
`undefined`. -/
def getDepositAddress (cr : Crypto) (env : Env) (cfg : Config) (now : Nat)
    (walletId : String) : List Request × Except JsError JSValue :=
  match apiRequest cr env cfg now "POST" ("/v2/wallets/" ++ walletId ++ "/addresses")
      (ParamsArg.jobj depositBody) with
  | (tr, Except.error e) => (tr, Except.error e)
  | (tr, Except.ok result) =>
    let addressInfo := selectAddressInfo result
    match jsGetProp addressInfo "address" with
    | Except.error e => (tr, Except.error e)
    | Except.ok a => (tr, Except.ok (if jsTruthy a then a else JSValue.vStr ""))

/-- The request body of `withdrawETH` (helper.js lines 150-156). -/
def withdrawBody (walletId toAddress : String) (amount : JSValue) : Params :=
  [("source_wallet_id", JSValue.vStr walletId), ("token_id", JSValue.vStr "ETH"),
   ("to_address", JSValue.vStr toAddress), ("amount", amount)]

/-- helper.js lines 144-160: POST `/v2/transactions/transfer` and
return the result (the logging interpolates `JSON.stringify(result)`,
which cannot throw). -/
def withdrawETH (cr : Crypto) (env : Env) (cfg : Config) (now : Nat)
    (walletId toAddress : String) (amount : JSValue) : List Request × Except JsError JSValue :=
  apiRequest cr env cfg now "POST" "/v2/transactions/transfer"
    (ParamsArg.jobj (withdrawBody walletId toAddress amount))

/-! Concrete instances used to exercise the definitions: a small stand-in
for the cryptographic primitives, a configuration, and environments
covering the interesting `fetch` outcomes. -/

/-- A concrete stand-in for the two cryptographic primitives, good
enough to evaluate the helper end to end. -/
def cryptoT : Crypto :=
  { sha256 := fun m => [m.length % 256]
    signDER := fun sec h => sec ++ ":" ++ String.intercalate "," (h.map toString) }

/-- A concrete module configuration. -/
def cfgT : Config :=
  { apiKey := "key-1", apiSecret := "sec-1", baseUrl := "https://api.cobo.com" }

/-- An environment whose `fetch` always fails at the network level. -/
def envNetFail : Env := ⟨fun _ => FetchOutcome.netErr "connection refused"⟩

/-- An environment answering 200 with the JSON body `null`. -/
def envNullBody : Env := ⟨fun _ => FetchOutcome.response 200 "OK" (some JSValue.vNull) "null"⟩

/-- An environment answering 200 with the JSON body `[]`. -/
def envEmptyArr : Env := ⟨fun _ => FetchOutcome.response 200 "OK" (some (JSValue.vArr [])) "[]"⟩

/-- An environment answering 200 with a wallet object carrying a
`wallet_id` and an `address`. -/
def envOkWallet : Env :=
  ⟨fun _ => FetchOutcome.response 200 "OK"
    (some (JSValue.vObj [("wallet_id", JSValue.vStr "w-1"), ("address", JSValue.vStr "0xabc")]))
    "body"⟩

/-! Order lemmas for the key comparison, and small helper lemmas about
the embedded operations. -/

theorem charsLe_total (as bs : List Char) : charsLe as bs = true ∨ charsLe bs as = true := by
  induction as generalizing bs with
  | nil => left; rfl
  | cons a as ih =>
    cases bs with
    | nil => right; rfl
    | cons b bs =>
      rcases Nat.lt_trichotomy a.val.toNat b.val.toNat with h | h | h
      · left; simp [charsLe, h]
      · rcases ih bs with h2 | h2
        · left; simp [charsLe, h, h2]
        · right; simp [charsLe, h.symm, h2]
      · right; simp [charsLe, h]

theorem charsLe_trans (as bs cs : List Char) (h1 : charsLe as bs = true)
    (h2 : charsLe bs cs = true) : charsLe as cs = true := by
  induction as generalizing bs cs with
  | nil => rfl
  | cons a as ih =>
    cases bs with
    | nil => simp [charsLe] at h1
    | cons b bs =>
      cases cs with
      | nil => simp [charsLe] at h2
      | cons c cs =>
        by_cases hab : a.val.toNat < b.val.toNat <;>
          by_cases hbc : b.val.toNat < c.val.toNat <;>
          by_cases hac : a.val.toNat < c.val.toNat <;>
          simp [charsLe, hab, hbc, hac] at h1 h2 ⊢ <;>
          first
            | omega
            | exact ih bs cs h1 h2
            | exact ih bs cs h1.2 h2.2
            | exact ⟨by omega, ih bs cs h1.2 h2.2⟩

instance : IsTotal String strLeP :=
  ⟨fun a b => charsLe_total a.data b.data⟩

instance : IsTrans String strLeP :=
  ⟨fun a b c h1 h2 => charsLe_trans a.data b.data c.data h1 h2⟩

/-- Every branch of `apiRequest` issues exactly the one request built
by `theRequest`. -/
theorem apiRequest_issues_one_request (cr : Crypto) (env : Env) (cfg : Config) (now : Nat)
    (method path : String) (bodyObj : ParamsArg) :
    (apiRequest cr env cfg now method path bodyObj).1 =
      [theRequest cr cfg now method path bodyObj] := by
  cases h : env.fetch (theRequest cr cfg now method path bodyObj) with
  | netErr msg => simp [apiRequest, h]
  | response status statusText jsonBody bodyText =>
    cases jsonBody with
    | none => simp [apiRequest, h]
    | some r =>
      by_cases hok : respOk status
      · simp [apiRequest, h, hok]
      · cases hm : jsGetProp r "message" with
        | error e => simp [apiRequest, h, hok, hm]
        | ok m => simp [apiRequest, h, hok, hm]

/-- Property access succeeds on every value other than `null` and
`undefined`. -/
theorem jsGetProp_isOk (v : JSValue) (p : String) (h1 : v ≠ JSValue.vNull)
    (h2 : v ≠ JSValue.vUndefined) : ∃ a, jsGetProp v p = Except.ok a := by
  cases v with
  | vNull => exact absurd rfl h1
  | vUndefined => exact absurd rfl h2
  | vObj fs => exact ⟨_, rfl⟩
  | vArr xs => exact ⟨_, rfl⟩
  | vBool b => exact ⟨_, rfl⟩
  | vNum n => exact ⟨_, rfl⟩
  | vStr s => exact ⟨_, rfl⟩

/-- C1: for every method, path, nonce and params object, `signRequest`
returns the hex-encoded DER ECDSA signature (the `signDER` primitive
applied to the configured secp256k1 private key) over the SHA-256 hash
of the message `METHOD|PATH|NONCE|PARAMS`, where `METHOD` is the
method argument uppercased and `PARAMS` is the canonical parameter
string. -/
theorem signRequest_der_sha256 (cr : Crypto) (apiSecret method path nonce : String)
    (params : ParamsArg) :
    signRequest cr apiSecret method path nonce params =
      cr.signDER apiSecret
        (cr.sha256 (jsUpper method ++ "|" ++ path ++ "|" ++ nonce ++ "|" ++
          buildParamsStr params)) := rfl

/-- C2: for a non-empty params object the canonical parameter string
is the sorted `key=value` pairs (object values JSON-stringified)
joined by `&`, with the sorted key list ordered under the string
comparison and a permutation of the object keys; for an empty, null
or undefined params the string is empty. -/
theorem canonical_params_spec (ps : Params) (hne : ps ≠ []) :
    buildParamsStr (ParamsArg.jobj ps) =
      String.intercalate "&"
        ((sortedKeysOf ps).map fun key => key ++ "=" ++ renderParamValue (jsGet ps key))
    ∧ List.Sorted strLeP (sortedKeysOf ps)
    ∧ List.Perm (sortedKeysOf ps) (ps.map Prod.fst)
    ∧ buildParamsStr (ParamsArg.jobj []) = ""
    ∧ buildParamsStr ParamsArg.jnull = ""
    ∧ buildParamsStr ParamsArg.jundefined = "" := by
  refine ⟨?_, List.sorted_insertionSort strLeP (ps.map Prod.fst),
    List.perm_insertionSort strLeP (ps.map Prod.fst), rfl, rfl, rfl⟩
  cases ps with
  | nil => exact absurd rfl hne
  | cons kv rest => simp [buildParamsStr, keyValuePairsOf]

/-- Witness for C2 at a concrete two-key object. -/
theorem canonical_params_spec_witness :
    ([("b", JSValue.vStr "2"), ("a", JSValue.vNum 1)] : Params) ≠ []
    ∧ buildParamsStr (ParamsArg.jobj [("b", JSValue.vStr "2"), ("a", JSValue.vNum 1)]) =
        String.intercalate "&"
          ((sortedKeysOf [("b", JSValue.vStr "2"), ("a", JSValue.vNum 1)]).map fun key =>
            key ++ "=" ++ renderParamValue (jsGet [("b", JSValue.vStr "2"), ("a", JSValue.vNum 1)] key))
    ∧ buildParamsStr (ParamsArg.jobj [("b", JSValue.vStr "2"), ("a", JSValue.vNum 1)]) =
        "a=1&b=2" :=
  ⟨by simp, (canonical_params_spec [("b", JSValue.vStr "2"), ("a", JSValue.vNum 1)] (by simp)).1,
    by decide⟩

/-- C3: `apiRequest` issues exactly one `fetch` call (no retry); a
network failure, a non-JSON body, and a non-2xx status each end in a
thrown error, and a 2xx response with a JSON body returns that parsed
body. -/
theorem apiRequest_error_surface (cr : Crypto) (env : Env) (cfg : Config) (now : Nat)
    (method path : String) (bodyObj : ParamsArg) :
    (apiRequest cr env cfg now method path bodyObj).1 =
      [theRequest cr cfg now method path bodyObj]
    ∧ (∀ msg, env.fetch (theRequest cr cfg now method path bodyObj) = FetchOutcome.netErr msg →
        (apiRequest cr env cfg now method path bodyObj).2 = Except.error (JsError.network msg))
    ∧ (∀ status statusText bodyText,
        env.fetch (theRequest cr cfg now method path bodyObj) =
          FetchOutcome.response status statusText none bodyText →
        ∃ e, (apiRequest cr env cfg now method path bodyObj).2 = Except.error e)
    ∧ (∀ status statusText r bodyText,
        env.fetch (theRequest cr cfg now method path bodyObj) =
          FetchOutcome.response status statusText (some r) bodyText →
        respOk status = false →
        ∃ e, (apiRequest cr env cfg now method path bodyObj).2 = Except.error e)
    ∧ (∀ status statusText r bodyText,
        env.fetch (theRequest cr cfg now method path bodyObj) =
          FetchOutcome.response status statusText (some r) bodyText →
        respOk status = true →
        (apiRequest cr env cfg now method path bodyObj).2 = Except.ok r) := by
  refine ⟨apiRequest_issues_one_request cr env cfg now method path bodyObj, ?_, ?_, ?_, ?_⟩
  · intro msg h
    simp [apiRequest, h]
  · intro status statusText bodyText h
    simp [apiRequest, h]
  · intro status statusText r bodyText h hok
    cases hm : jsGetProp r "message" with
    | error e => exact ⟨e, by simp [apiRequest, h, hok, hm]⟩
    | ok m => simp [apiRequest, h, hok, hm]
  · intro status statusText r bodyText h hok
    simp [apiRequest, h, hok]

/-- Witness for C3: a network failure surfaces as the rethrown error. -/
theorem apiRequest_error_surface_witness :
    envNetFail.fetch (theRequest cryptoT cfgT 0 "GET" "/v2/wallets" ParamsArg.jnull) =
      FetchOutcome.netErr "connection refused"
    ∧ (apiRequest cryptoT envNetFail cfgT 0 "GET" "/v2/wallets" ParamsArg.jnull).2 =
        Except.error (JsError.network "connection refused") :=
  ⟨rfl, (apiRequest_error_surface cryptoT envNetFail cfgT 0 "GET" "/v2/wallets"
    ParamsArg.jnull).2.1 "connection refused" rfl⟩

/-- C4: `signRequest` is deterministic and stateless: two calls with
equal method, path, nonce and params arguments return equal hex
signature strings (the embedded signing primitive is a function, as
elliptic signs deterministically per RFC 6979). -/
theorem signRequest_deterministic (cr : Crypto) (apiSecret m1 p1 n1 m2 p2 n2 : String)
    (ps1 ps2 : ParamsArg) (hm : m1 = m2) (hp : p1 = p2) (hn : n1 = n2) (hps : ps1 = ps2) :
    signRequest cr apiSecret m1 p1 n1 ps1 = signRequest cr apiSecret m2 p2 n2 ps2 := by
  rw [hm, hp, hn, hps]

/-- Witness for C4 at concrete arguments. -/
theorem signRequest_deterministic_witness :
    signRequest cryptoT "sec-1" "get" "/v2/wallets" "17"
        (ParamsArg.jobj [("limit", JSValue.vNum 10)]) =
      signRequest cryptoT "sec-1" "get" "/v2/wallets" "17"
        (ParamsArg.jobj [("limit", JSValue.vNum 10)]) :=
  signRequest_deterministic cryptoT "sec-1" "get" "/v2/wallets" "17" "get" "/v2/wallets" "17"
    (ParamsArg.jobj [("limit", JSValue.vNum 10)]) (ParamsArg.jobj [("limit", JSValue.vNum 10)])
    rfl rfl rfl rfl

/-- C5: the request of `apiRequest` carries exactly the headers
BIZ-API-KEY (the configured key), BIZ-API-NONCE (`Date.now()` as a
string), BIZ-API-SIGNATURE, Content-Type and Accept; and the
BIZ-API-NONCE header value is exactly the NONCE component of the
signed message. -/
theorem apiRequest_headers_nonce (cr : Crypto) (env : Env) (cfg : Config) (now : Nat)
    (method path : String) (bodyObj : ParamsArg) :
    (theRequest cr cfg now method path bodyObj).headers =
      [("BIZ-API-KEY", cfg.apiKey), ("BIZ-API-NONCE", toString now),
       ("BIZ-API-SIGNATURE",
         signRequest cr cfg.apiSecret method path (toString now) (orEmptyObj bodyObj)),
       ("Content-Type", "application/json"), ("Accept", "application/json")]
    ∧ (apiRequest cr env cfg now method path bodyObj).1 =
        [theRequest cr cfg now method path bodyObj]
    ∧ signRequest cr cfg.apiSecret method path (toString now) (orEmptyObj bodyObj) =
        cr.signDER cfg.apiSecret (cr.sha256
          (jsUpper method ++ "|" ++ path ++ "|" ++ toString now ++ "|" ++
            buildParamsStr (orEmptyObj bodyObj))) :=
  ⟨rfl, apiRequest_issues_one_request cr env cfg now method path bodyObj, rfl⟩

/-- C6 counterexample: on a 2xx response whose JSON body is `null`,
`apiRequest` returns normally with that result, but `createWallet`
throws a `TypeError` (the success log line reads `result.wallet_id`),
so it does not return the result of its `apiRequest` call. -/
theorem createWallet_null_result_ce :
    (apiRequest cryptoT envNullBody cfgT 0 "POST" "/v2/wallets"
        (ParamsArg.jobj (walletBody "w"))).2 = Except.ok JSValue.vNull
    ∧ (createWallet cryptoT envNullBody cfgT 0 "w").2 =
        Except.error (JsError.typeError "Cannot read properties of null (reading wallet_id)") :=
  ⟨rfl, rfl⟩

/-- C6 amended: `createWallet` issues exactly the one request of its
single `apiRequest` call, with method POST, path `/v2/wallets` and
body `name`/`wallet_type: Custodial`; and whenever that call returns
a result other than `null` or `undefined` it returns it unchanged. -/
theorem createWallet_request_result (cr : Crypto) (env : Env) (cfg : Config) (now : Nat)
    (name : String) :
    (createWallet cr env cfg now name).1 =
      [theRequest cr cfg now "POST" "/v2/wallets" (ParamsArg.jobj (walletBody name))]
    ∧ (∀ r, (apiRequest cr env cfg now "POST" "/v2/wallets"
          (ParamsArg.jobj (walletBody name))).2 = Except.ok r →
        r ≠ JSValue.vNull → r ≠ JSValue.vUndefined →
        (createWallet cr env cfg now name).2 = Except.ok r) := by
  have htr := apiRequest_issues_one_request cr env cfg now "POST" "/v2/wallets"
    (ParamsArg.jobj (walletBody name))
  rcases hA : apiRequest cr env cfg now "POST" "/v2/wallets"
      (ParamsArg.jobj (walletBody name)) with ⟨tr, res⟩
  rw [hA] at htr
  simp only at htr
  constructor
  · cases res with
    | error e => simp [createWallet, hA, htr]
    | ok result =>
      cases hg : jsGetProp result "wallet_id" with
      | error e => simp [createWallet, hA, hg, htr]
      | ok v => simp [createWallet, hA, hg, htr]
  · intro r hr hn hu
    simp only at hr
    subst hr
    obtain ⟨a, ha⟩ := jsGetProp_isOk r "wallet_id" hn hu
    simp [createWallet, hA, ha]

/-- Witness for the amended C6 on a 2xx wallet-object response. -/
theorem createWallet_request_result_witness :
    (apiRequest cryptoT envOkWallet cfgT 0 "POST" "/v2/wallets"
        (ParamsArg.jobj (walletBody "w"))).2 =
      Except.ok (JSValue.vObj [("wallet_id", JSValue.vStr "w-1"), ("address", JSValue.vStr "0xabc")])
    ∧ (createWallet cryptoT envOkWallet cfgT 0 "w").2 =
        Except.ok (JSValue.vObj [("wallet_id", JSValue.vStr "w-1"), ("address", JSValue.vStr "0xabc")]) :=
  ⟨rfl, (createWallet_request_result cryptoT envOkWallet cfgT 0 "w").2
    (JSValue.vObj [("wallet_id", JSValue.vStr "w-1"), ("address", JSValue.vStr "0xabc")]) rfl
    (fun h => JSValue.noConfusion h) (fun h => JSValue.noConfusion h)⟩

/-- C7: when the underlying `apiRequest` call throws, each of
`createWallet`, `getDepositAddress` and `withdrawETH` propagates the
same error unchanged and issues no further requests. -/
theorem wrappers_propagate_error (cr : Crypto) (env : Env) (cfg : Config) (now : Nat)
    (name walletId toAddress : String) (amount : JSValue) (e : JsError) :
    ((apiRequest cr env cfg now "POST" "/v2/wallets"
        (ParamsArg.jobj (walletBody name))).2 = Except.error e →
      createWallet cr env cfg now name =
        ((apiRequest cr env cfg now "POST" "/v2/wallets"
          (ParamsArg.jobj (walletBody name))).1, Except.error e))
    ∧ ((apiRequest cr env cfg now "POST" ("/v2/wallets/" ++ walletId ++ "/addresses")
        (ParamsArg.jobj depositBody)).2 = Except.error e →
      getDepositAddress cr env cfg now walletId =
        ((apiRequest cr env cfg now "POST" ("/v2/wallets/" ++ walletId ++ "/addresses")
          (ParamsArg.jobj depositBody)).1, Except.error e))
    ∧ ((apiRequest cr env cfg now "POST" "/v2/transactions/transfer"
        (ParamsArg.jobj (withdrawBody walletId toAddress amount))).2 = Except.error e →
      withdrawETH cr env cfg now walletId toAddress amount =
        ((apiRequest cr env cfg now "POST" "/v2/transactions/transfer"
          (ParamsArg.jobj (withdrawBody walletId toAddress amount))).1, Except.error e)) := by
  refine ⟨?_, ?_, ?_⟩
  · intro h
    rcases hA : apiRequest cr env cfg now "POST" "/v2/wallets"
        (ParamsArg.jobj (walletBody name)) with ⟨tr, res⟩
    rw [hA] at h
    simp only at h
    subst h
    simp [createWallet, hA]
  · intro h
    rcases hA : apiRequest cr env cfg now "POST" ("/v2/wallets/" ++ walletId ++ "/addresses")
        (ParamsArg.jobj depositBody) with ⟨tr, res⟩
    rw [hA] at h
    simp only at h
    subst h
    simp [getDepositAddress, hA]
  · intro h
    rcases hA : apiRequest cr env cfg now "POST" "/v2/transactions/transfer"
        (ParamsArg.jobj (withdrawBody walletId toAddress amount)) with ⟨tr, res⟩
    rw [hA] at h
    simp only at h
    subst h
    simp [withdrawETH, hA]

/-- Witness for C7: a network failure propagates through
`createWallet` unchanged. -/
theorem wrappers_propagate_error_witness :
    createWallet cryptoT envNetFail cfgT 0 "w" =
      ((apiRequest cryptoT envNetFail cfgT 0 "POST" "/v2/wallets"
        (ParamsArg.jobj (walletBody "w"))).1,
        Except.error (JsError.network "connection refused")) :=
  (wrappers_propagate_error cryptoT envNetFail cfgT 0 "w" "w" "0x0" JSValue.vNull
    (JsError.network "connection refused")).1 rfl

/-- C8: `signRequest` yields the same signature for `null`,
`undefined` and `{}` params; `apiRequest` with a null body signs the
same message as with `{}` (the headers agree), yet the null-body
request carries no body while the `{}`-body request carries the body
text `{}`. -/
theorem signRequest_empty_params_agree (cr : Crypto) (apiSecret method path nonce : String)
    (cfg : Config) (now : Nat) :
    signRequest cr apiSecret method path nonce ParamsArg.jnull =
      signRequest cr apiSecret method path nonce (ParamsArg.jobj [])
    ∧ signRequest cr apiSecret method path nonce ParamsArg.jundefined =
      signRequest cr apiSecret method path nonce (ParamsArg.jobj [])
    ∧ (theRequest cr cfg now method path ParamsArg.jnull).headers =
        (theRequest cr cfg now method path (ParamsArg.jobj [])).headers
    ∧ (theRequest cr cfg now method path ParamsArg.jnull).body = none
    ∧ (theRequest cr cfg now method path (ParamsArg.jobj [])).body = some "\x7b\x7d" :=
  ⟨rfl, rfl, rfl, rfl, rfl⟩

/-- C9: when COBO_API_KEY or COBO_API_SECRET is unset the module
throws at load time, and a successful load pins both credentials to
non-empty environment values, so no operation runs without them. -/
theorem loadModule_requires_credentials :
    (∀ envVars : String → Option String,
      envVars "COBO_API_KEY" = none ∨ envVars "COBO_API_SECRET" = none →
      loadModule envVars = Except.error (JsError.error
        "Missing API key or secret. Please set COBO_API_KEY and COBO_API_SECRET in .env"))
    ∧ (∀ (envVars : String → Option String) (cfg : Config),
      loadModule envVars = Except.ok cfg →
      envVars "COBO_API_KEY" = some cfg.apiKey ∧ cfg.apiKey ≠ ""
      ∧ envVars "COBO_API_SECRET" = some cfg.apiSecret ∧ cfg.apiSecret ≠ "") := by
  constructor
  · intro envVars h
    cases hk : envVars "COBO_API_KEY" with
    | none => cases hs : envVars "COBO_API_SECRET" <;> simp [loadModule, hk, hs]
    | some k =>
      cases hs : envVars "COBO_API_SECRET" with
      | none => simp [loadModule, hk, hs]
      | some s => rcases h with h | h <;> simp_all
  · intro envVars cfg h
    cases hk : envVars "COBO_API_KEY" with
    | none => cases hs : envVars "COBO_API_SECRET" <;> simp [loadModule, hk, hs] at h
    | some k =>
      cases hs : envVars "COBO_API_SECRET" with
      | none => simp [loadModule, hk, hs] at h
      | some s =>
        simp only [loadModule, hk, hs] at h
        split at h
        next hcond =>
          simp only [Bool.and_eq_true] at hcond
          rcases hcond with ⟨hk2, hs2⟩
          injection h with h2
          subst h2
          exact ⟨rfl, bne_iff_ne.mp hk2, rfl, bne_iff_ne.mp hs2⟩
        next => exact Except.noConfusion h

/-- Witness for C9: an empty environment makes the module throw. -/
theorem loadModule_requires_credentials_witness :
    loadModule (fun _ => none) = Except.error (JsError.error
      "Missing API key or secret. Please set COBO_API_KEY and COBO_API_SECRET in .env") :=
  loadModule_requires_credentials.1 (fun _ => none) (Or.inl rfl)

/-- C10 counterexample: on a 2xx response whose JSON body is the empty
array, `apiRequest` returns normally but `getDepositAddress` throws a
`TypeError` (reading `address` on `result[0]`, which is `undefined`)
instead of returning the empty string. -/
theorem getDepositAddress_empty_array_ce :
    (apiRequest cryptoT envEmptyArr cfgT 0 "POST" ("/v2/wallets/" ++ "w1" ++ "/addresses")
        (ParamsArg.jobj depositBody)).2 = Except.ok (JSValue.vArr [])
    ∧ (getDepositAddress cryptoT envEmptyArr cfgT 0 "w1").2 =
        Except.error (JsError.typeError "Cannot read properties of undefined (reading address)") :=
  ⟨rfl, rfl⟩

/-- C10 amended: whenever the reply is a value on which the `address`
read does not throw (the selected value - the first element of an
array reply, the reply itself otherwise - is neither `null` nor
`undefined`), `getDepositAddress` returns its `address` field with a
falsy address defaulted to the empty string, issuing no further
requests. -/
theorem getDepositAddress_result (cr : Crypto) (env : Env) (cfg : Config) (now : Nat)
    (walletId : String) (r a : JSValue)
    (hr : (apiRequest cr env cfg now "POST" ("/v2/wallets/" ++ walletId ++ "/addresses")
        (ParamsArg.jobj depositBody)).2 = Except.ok r)
    (ha : jsGetProp (selectAddressInfo r) "address" = Except.ok a) :
    (getDepositAddress cr env cfg now walletId).2 =
      Except.ok (if jsTruthy a then a else JSValue.vStr "")
    ∧ (getDepositAddress cr env cfg now walletId).1 =
        (apiRequest cr env cfg now "POST" ("/v2/wallets/" ++ walletId ++ "/addresses")
          (ParamsArg.jobj depositBody)).1 := by
  rcases hA : apiRequest cr env cfg now "POST" ("/v2/wallets/" ++ walletId ++ "/addresses")
      (ParamsArg.jobj depositBody) with ⟨tr, res⟩
  rw [hA] at hr
  simp only at hr
  subst hr
  constructor <;> simp [getDepositAddress, hA, ha]

/-- Witness for the amended C10: a non-array object reply with a
truthy address field. -/
theorem getDepositAddress_result_witness :
    (getDepositAddress cryptoT envOkWallet cfgT 0 "w1").2 = Except.ok (JSValue.vStr "0xabc") :=
  (getDepositAddress_result cryptoT envOkWallet cfgT 0 "w1"
    (JSValue.vObj [("wallet_id", JSValue.vStr "w-1"), ("address", JSValue.vStr "0xabc")])
    (JSValue.vStr "0xabc") rfl rfl).1
